import Mathlib

/-!
Verification development for the NTPStatisticSync repository.

The repository is a small Python system that polls an NTP daemon, writes
timestamped observation records into a hierarchy of rotating log files,
rotates closed periods (day/month) into "final" directories, reconciles
directories against an allow-list, and ships files over FTP with a bounded
retry loop.

This file gives a shallow embedding of the file-system-relevant parts of
`src/general_ntpd/ntp_statistic_sync.py` (class `NTPDataSync`) and of the
FTP retry / transfer logic of `src/ftp/report_to_ftp.py` (class
`FTPUploader`), and proves properties of those definitions.

Modelling conventions:
* `datetime.datetime.now()` values are modelled by the `DT` structure
  (year/month/day/hour/minute as `Nat`); Python date arithmetic
  (`timedelta(days=1)`, `replace(day=1)`) is reproduced with proleptic
  Gregorian month lengths and leap years, as CPython implements it.
* The filesystem is a pair of a list of existing directory names and an
  association list from (directory, filename) pairs to file contents.
  Directory names are opaque strings; `mkdir(parents=True, exist_ok=True)`
  on such an atom is modelled as inserting that one atom.
* Fallible operations return `Except Unit`; `Path.iterdir()` on a missing
  directory raises `FileNotFoundError`, modelled as `Except.error ()`.
* Side channels (logging.info/warning/error, TelegramBot.send_message,
  time.sleep) are modelled as an event trace, so that properties about
  "reported", "notified", "slept", "attempted" can be stated.
* `shutil.move` is modelled as atomic: it either fully relocates the file
  or raises with the source left intact; a Boolean oracle decides which.
-/

/-- A wall-clock instant as read from `datetime.datetime.now()`. -/
structure DT where
  year : Nat
  month : Nat
  day : Nat
  hour : Nat
  minute : Nat
deriving DecidableEq, Repr

/-- Proleptic Gregorian leap-year rule, as used by Python `datetime`. -/
def isLeap (y : Nat) : Bool :=
  y % 4 == 0 && (y % 100 != 0 || y % 400 == 0)

/-- Number of days in a month of a given year (Python `datetime` calendar). -/
def daysInMonth (y m : Nat) : Nat :=
  if m == 2 then (if isLeap y then 29 else 28)
  else if m == 4 || m == 6 || m == 9 || m == 11 then 30
  else 31

/-- `t - timedelta(days=1)`: the same wall-clock time one calendar day
earlier, rolling over month and year boundaries as Python does. -/
def prevDay (t : DT) : DT :=
  if 2 ≤ t.day then { t with day := t.day - 1 }
  else if 2 ≤ t.month then
    { t with month := t.month - 1, day := daysInMonth t.year (t.month - 1) }
  else { t with year := t.year - 1, month := 12, day := 31 }

/-- Decimal rendering of a natural, left-padded with zeros to width `w`
(the behaviour of `strftime` field padding). -/
def padNum (w n : Nat) : String :=
  let s := Nat.repr n
  String.mk (List.replicate (w - s.length) '0') ++ s

/-- `strftime("%Y%m%d")`. -/
def fmtYMD (t : DT) : String := padNum 4 t.year ++ padNum 2 t.month ++ padNum 2 t.day

/-- `strftime("%Y%m")` (also `date_id[:6]` for years below 10000). -/
def fmtYM (t : DT) : String := padNum 4 t.year ++ padNum 2 t.month

/-- `strftime("%Y")`. -/
def fmtY (t : DT) : String := padNum 4 t.year

/-- `strftime("%m")`. -/
def fmtM (t : DT) : String := padNum 2 t.month

/-- `strftime("%d.%m.%Y %H:%M:%S")`, the record timestamp written by
`execute_sync` (seconds are not tracked by `DT`; `00` stands in). -/
def reportTime (t : DT) : String :=
  padNum 2 t.day ++ "." ++ padNum 2 t.month ++ "." ++ padNum 4 t.year ++ " "
    ++ padNum 2 t.hour ++ ":" ++ padNum 2 t.minute ++ ":00"

/-- A file path as the pair (containing directory, file name); the Python
code always builds paths as `directory / filename`. -/
structure FPath where
  dir : String
  name : String
deriving DecidableEq, Repr

/-- The filesystem: the set of existing directories (as opaque path
strings) and the regular files with their contents. Entries of `files` are
exactly the objects for which Python `is_file()` is true; entries of
`dirs` are those for which `is_dir()` is true. -/
structure FS where
  dirs : List String
  files : List (FPath × String)
deriving DecidableEq, Repr

/-- Content of the file at `p`, if it exists. -/
def lookupFile (fs : FS) (p : FPath) : Option String :=
  (fs.files.find? (fun e => e.1 == p)).map (fun e => e.2)

/-- Create or overwrite the file at `p` with content `c`. -/
def setFile (fs : FS) (p : FPath) (c : String) : FS :=
  { fs with files := (p, c) :: fs.files.filter (fun e => !(e.1 == p)) }

/-- Remove the file at `p` if present. -/
def removeFile (fs : FS) (p : FPath) : FS :=
  { fs with files := fs.files.filter (fun e => !(e.1 == p)) }

/-- `Path(d).mkdir(parents=True, exist_ok=True)` on the atomic directory
name `d`. -/
def mkdirP (fs : FS) (d : String) : FS :=
  if fs.dirs.contains d then fs else { fs with dirs := d :: fs.dirs }

/-- The regular files directly inside directory `d`. -/
def filesIn (fs : FS) (d : String) : List (FPath × String) :=
  fs.files.filter (fun e => e.1.dir == d)

/-- Side effects that the Python code performs besides filesystem changes:
a `shutil.move` call, its successful completion, a logged warning that is
also sent to the Telegram bot, a logged error that is also sent to the
bot, an informational Telegram notification, and a `time.sleep`. -/
inductive Event where
  | moveAttempt
  | moveDone
  | warnNotify
  | errorNotify
  | notify
  | sleep
deriving DecidableEq, Repr

/-- `NTPDataSync.write_to_file(file_path, data, date_time, append)`:
ensures the parent directory, then opens the file in `"a"` or `"w"` mode
and writes the timestamp line followed by the raw payload. -/
def write_to_file (fs : FS) (p : FPath) (data dateTime : String) (append : Bool) : FS :=
  let fs1 := mkdirP fs p.dir
  let old := (lookupFile fs1 p).getD ""
  setFile fs1 p (if append then old ++ dateTime ++ "\n" ++ data else dateTime ++ "\n" ++ data)

/-- `NTPDataSync.clean_final_directory(directory, exclude)`: iterates the
directory (raising, like `Path.iterdir`, when it does not exist) and
unlinks every regular file not in `exclude`; subdirectory entries fail the
`is_file()` test and are never touched. -/
def clean_final_directory (fs : FS) (d : String) (exclude : List FPath) : Except Unit FS :=
  if fs.dirs.contains d then
    let kept := fs.files.filter (fun e => !(e.1.dir == d && !(exclude.contains e.1)))
    Except.ok { fs with files := kept }
  else Except.error ()

/-- Relocate the file at `src` to `dst` (the effect of a successful
`shutil.move`). -/
def moveFile (fs : FS) (src dst : FPath) : FS :=
  match lookupFile fs src with
  | some c => setFile (removeFile fs src) dst c
  | none => fs

/-- `NTPDataSync.transfer_to_final(source_path, destination_path,
is_monthly)`: inside a try/except, if the source exists it ensures the
destination directory, moves the file, and prunes the final directory
`finalDir` keeping only the destination; if the source is missing it logs
a warning and notifies the bot. Any exception (a failing move, signalled
by `moveOk = false`, or a missing final directory during the prune) is
caught, logged and notified; the state reached so far is kept. -/
def transfer_to_final (moveOk : Bool) (fs : FS) (src dst : FPath) (finalDir : String) :
    FS × List Event :=
  if (lookupFile fs src).isSome then
    let fs1 := mkdirP fs dst.dir
    if moveOk then
      let fs2 := moveFile fs1 src dst
      match clean_final_directory fs2 finalDir [dst] with
      | Except.ok fs3 => (fs3, [Event.moveAttempt, Event.moveDone])
      | Except.error _ => (fs2, [Event.moveAttempt, Event.moveDone, Event.errorNotify])
    else (fs1, [Event.moveAttempt, Event.errorNotify])
  else (fs, [Event.warnNotify])

/-- The `folders_path` keys of `common_config.json` that the sync engine
reads (`file_prefix` and `report_file_prefix` are the two filename
prefixes; the four directory fields are the monthly/daily staging
("actual") and final directories). -/
structure Config where
  generalPath : String
  filePref : String
  reportPref : String
  actualDataPath : String
  actualDayDataPath : String
  finalDayDataPath : String
  finalDataPath : String
  ntpdDriftPath : String
deriving DecidableEq, Repr

/-- The eight logical paths computed by `NTPDataSync.define_file_paths`
from one `datetime.datetime.now()` reading. -/
structure SyncPaths where
  dailyPath : FPath
  monthPath : FPath
  yearPath : FPath
  monthToReportPath : FPath
  dayToReportPath : FPath
  shortNtpdPath : FPath
  finalDayPath : FPath
  finalMonthPath : FPath
deriving DecidableEq, Repr

/-- `NTPDataSync.define_file_paths`, with `date_id = now.strftime("%Y%m%d")`,
`month_id = now.strftime("%m")`, `year_id = now.strftime("%Y")`;
`date_id[:6]` and `date_id[:4]` are the month and year keys. -/
def define_file_paths (t : DT) (cfg : Config) : SyncPaths :=
  let dateId := fmtYMD t
  let monthId := fmtM t
  let yearId := fmtY t
  { dailyPath := ⟨cfg.generalPath ++ "/" ++ yearId ++ "/" ++ monthId, cfg.filePref ++ dateId ++ ".log"⟩
    monthPath := ⟨cfg.generalPath ++ "/" ++ yearId ++ "/" ++ monthId, cfg.filePref ++ fmtYM t ++ ".log"⟩
    yearPath := ⟨cfg.generalPath ++ "/" ++ yearId, cfg.filePref ++ fmtY t ++ ".log"⟩
    monthToReportPath := ⟨cfg.actualDataPath, cfg.reportPref ++ fmtYM t ++ ".log"⟩
    dayToReportPath := ⟨cfg.actualDayDataPath, cfg.reportPref ++ dateId ++ ".log"⟩
    shortNtpdPath := ⟨cfg.generalPath, "ShortNtpd.log"⟩
    finalDayPath := ⟨cfg.finalDayDataPath, cfg.reportPref ++ dateId ++ ".log"⟩
    finalMonthPath := ⟨cfg.finalDataPath, cfg.reportPref ++ fmtYM t ++ ".log"⟩ }

/-- The two rotation granularities handled by `rotate_file(period=...)`. -/
inductive Period where
  | daily
  | monthly
deriving DecidableEq, Repr

/-- `previous_date` in `rotate_file`: for daily,
`(now - timedelta(days=1)).strftime("%Y%m%d")`; for monthly,
`(now.replace(day=1) - timedelta(days=1)).strftime("%Y%m")`. -/
def rotPrevKey (period : Period) (t : DT) : String :=
  match period with
  | Period.daily => fmtYMD (prevDay t)
  | Period.monthly => fmtYM (prevDay { t with day := 1 })

/-- `current_date` in `rotate_file`. -/
def rotCurKey (period : Period) (t : DT) : String :=
  match period with
  | Period.daily => fmtYMD t
  | Period.monthly => fmtYM t

/-- The final directory used by `rotate_file` for a period
(`final_day_data_path` or `final_data_path`). -/
def rotFinalDir (period : Period) (cfg : Config) : String :=
  match period with
  | Period.daily => cfg.finalDayDataPath
  | Period.monthly => cfg.finalDataPath

/-- The staging ("actual") directory used by `rotate_file` for a period. -/
def rotDataDir (period : Period) (cfg : Config) : String :=
  match period with
  | Period.daily => cfg.actualDayDataPath
  | Period.monthly => cfg.actualDataPath

/-- `NTPDataSync.rotate_file(period)`: computes previous/current keys and
paths, moves the previous staging file to the final directory via
`transfer_to_final`, then prunes the staging directory keeping only the
current file, and sends a completion notification. The staging-directory
prune runs outside any try/except, so a missing staging directory
propagates as an error. All `datetime.datetime.now()` readings inside the
call are the single instant `t`. -/
def rotate_file (period : Period) (t : DT) (cfg : Config) (moveOk : Bool) (fs : FS) :
    Except Unit (FS × List Event) :=
  let finalPath : FPath := ⟨rotFinalDir period cfg, cfg.reportPref ++ rotPrevKey period t ++ ".log"⟩
  let previousPath : FPath := ⟨rotDataDir period cfg, cfg.reportPref ++ rotPrevKey period t ++ ".log"⟩
  let currentPath : FPath := ⟨rotDataDir period cfg, cfg.reportPref ++ rotCurKey period t ++ ".log"⟩
  let step1 := transfer_to_final moveOk fs previousPath finalPath (rotFinalDir period cfg)
  match clean_final_directory step1.1 (rotDataDir period cfg) [currentPath] with
  | Except.ok fs2 => Except.ok (fs2, step1.2 ++ [Event.notify])
  | Except.error e => Except.error e

/-- `NTPDataSync.update_drift_stat`: appends the timestamp line and the
content of `ntp.drift` to `NTP_DRIFT_STAT.txt` in the general path; a
missing `ntp.drift` is a caught, logged-and-notified error that leaves
the filesystem unchanged. -/
def update_drift_stat (t : DT) (cfg : Config) (fs : FS) : FS × List Event :=
  let driftFile : FPath := ⟨cfg.ntpdDriftPath, "ntp.drift"⟩
  let statPath : FPath := ⟨cfg.generalPath, "NTP_DRIFT_STAT.txt"⟩
  match lookupFile fs driftFile with
  | some c =>
    let old := (lookupFile fs statPath).getD ""
    (setFile fs statPath (old ++ reportTime t ++ " xyz\n" ++ c), [])
  | none => (fs, [Event.errorNotify])

/-- The filesystem effects of `NTPDataSync.execute_sync` when every
`datetime.datetime.now()` reading during the invocation returns the same
instant `t` (no period boundary is crossed mid-run): write the NTP data
to the six target files (all appended, except `ShortNtpd.log` which is
overwritten), then run the monthly rotation if `day == 1 and hour == 0
and 0 <= minute < 10`, then the daily rotation if `hour == 0 and
0 <= minute < 10`, then update the drift statistics file. -/
def execute_sync (t : DT) (cfg : Config) (data : String) (moveOk : Bool) (fs : FS) :
    Except Unit (FS × List Event) :=
  let paths := define_file_paths t cfg
  let curTime := reportTime t
  let fs := write_to_file fs paths.dailyPath data curTime true
  let fs := write_to_file fs paths.monthPath data curTime true
  let fs := write_to_file fs paths.yearPath data curTime true
  let fs := write_to_file fs paths.monthToReportPath data curTime true
  let fs := write_to_file fs paths.dayToReportPath data curTime true
  let fs := write_to_file fs paths.shortNtpdPath data curTime false
  let afterMonthly : Except Unit (FS × List Event) :=
    if t.day == 1 && t.hour == 0 && t.minute < 10 then
      rotate_file Period.monthly t cfg moveOk fs
    else Except.ok (fs, [])
  match afterMonthly with
  | Except.error e => Except.error e
  | Except.ok (fs1, ev1) =>
    let afterDaily : Except Unit (FS × List Event) :=
      if t.hour == 0 && t.minute < 10 then
        rotate_file Period.daily t cfg moveOk fs1
      else Except.ok (fs1, [])
    match afterDaily with
    | Except.error e => Except.error e
    | Except.ok (fs2, ev2) =>
      let step3 := update_drift_stat t cfg fs2
      Except.ok (step3.1, ev1 ++ ev2 ++ step3.2)

/-- `NTPDataSync.ensure_final_directories`: creates the two final
directories if absent. -/
def ensure_final_directories (cfg : Config) (fs : FS) : FS :=
  mkdirP (mkdirP fs cfg.finalDayDataPath) cfg.finalDataPath

/-- One full invocation of the script (`NTPDataSync()` followed by
`execute_sync()`) restricted to its filesystem effects:
`setup_logging` creates the general path, `ensure_final_directories`
creates the final directories, then `execute_sync` runs, all at the
single instant `t`. -/
def invocation (t : DT) (cfg : Config) (data : String) (moveOk : Bool) (fs : FS) :
    Except Unit (FS × List Event) :=
  execute_sync t cfg data moveOk (ensure_final_directories cfg (mkdirP fs cfg.generalPath))

/-- The retry loop of `connect_to_ftp` (identical in `NTPDataSync` and
`FTPUploader`): `ok a` tells whether the `ftplib.FTP`+`login` attempt with
zero-based index `a` succeeds; `remaining` is `max_retries - attempt`.
On failure the attempt counter advances and, if attempts remain, one
`time.sleep(retry_delay)` runs before the next try. Returns whether a
connection was obtained and the trace of sleeps. -/
def connectAux (ok : Nat → Bool) (attempt : Nat) : Nat → Bool × List Event
  | 0 => (false, [])
  | r + 1 =>
    if ok attempt then (true, [])
    else
      let rest := connectAux ok (attempt + 1) r
      (rest.1, (if 0 < r then [Event.sleep] else []) ++ rest.2)

/-- `connect_to_ftp(ftp_config)` with `max_retries` total attempts: on
success returns the connection (`true`); on exhaustion logs the terminal
error, sends exactly one Telegram notification, and returns `None`
(`false`). -/
def connect_to_ftp (ok : Nat → Bool) (maxRetries : Nat) : Bool × List Event :=
  let r := connectAux ok 0 maxRetries
  if r.1 then r else (false, r.2 ++ [Event.errorNotify])

/-- The FTP configuration of `report_to_ftp.py`: the templated public
remote directory (`ftp_path_template.format(year=...)`, modelled as a
function of the substituted year string) and the fixed local remote
directory (`ftp_path`). -/
structure FtpConfig where
  pathTemplate : String → String
  localFtpPath : String

/-- The remote directories selected by `FTPUploader.execute_transfer` at
instant `t`: the monthly branch fires when `day == 1 and hour == 10` and
substitutes `str(now.year - 1)` for January invocations and
`str(now.year)` otherwise into the template; the daily branch fires when
`hour == 10` and always uses the untemplated `local_ftp["ftp_path"]`. -/
def execute_transfer_paths (t : DT) (cfg : FtpConfig) : Option String × Option String :=
  let monthly :=
    if t.day == 1 && t.hour == 10 then
      let yearStr := if t.month == 1 then Nat.repr (t.year - 1) else Nat.repr t.year
      some (cfg.pathTemplate yearStr)
    else none
  let daily := if t.hour == 10 then some cfg.localFtpPath else none
  (monthly, daily)

/-- A clock: the value returned by the `n`-th `datetime.datetime.now()`
call of one invocation of `ntp_statistic_sync.py`, in program order:
read 0 in `__init__` (`report_date`), read 1 in `define_file_paths`,
read 2 in `execute_sync` (`current_time`), read 3 in `execute_sync`
(the rotation trigger checks), reads 4 and 5 in `rotate_file`
(previous/current keys), read 6 in `update_drift_stat`. -/
def Clock : Type := Nat → DT

/-- The file paths of the invocation are derived from clock read 1. -/
def pathsRead (c : Clock) (cfg : Config) : SyncPaths :=
  define_file_paths (c 1) cfg

/-- The (monthly, daily) rotation trigger decisions of `execute_sync` are
derived from clock read 3. -/
def triggersRead (c : Clock) : Bool × Bool :=
  let t := c 3
  (t.day == 1 && t.hour == 0 && t.minute < 10, t.hour == 0 && t.minute < 10)

/-- The previous/current rotation keys of `rotate_file` are derived from
clock reads 4 and 5. -/
def rotKeysRead (c : Clock) (period : Period) : String × String :=
  (rotPrevKey period (c 4), rotCurKey period (c 5))

/-- Looking a file up is unaffected by creating a directory. -/
theorem lookupFile_mkdirP (fs : FS) (d : String) (p : FPath) :
    lookupFile (mkdirP fs d) p = lookupFile fs p := by
  unfold mkdirP
  split <;> rfl

/-- Looking up a file just written returns the written content. -/
theorem lookupFile_setFile_self (fs : FS) (p : FPath) (c : String) :
    lookupFile (setFile fs p c) p = some c := by
  simp [lookupFile, setFile, List.find?]

/-- Filtering with a predicate implied by the search predicate does not
change the result of `find?`. -/
theorem find?_filter_of_imp {α : Type} (l : List α) (q f : α → Bool)
    (h : ∀ e, q e = true → f e = true) : (l.filter f).find? q = l.find? q := by
  induction l with
  | nil => rfl
  | cons a t ih =>
    cases hq : q a with
    | true => simp [List.filter_cons, h a hq, List.find?, hq]
    | false =>
      cases hf : f a with
      | true => simp [List.filter_cons, hf, List.find?, hq, ih]
      | false => simp [List.filter_cons, hf, List.find?, hq, ih]

/-- When the previous staging file is absent, `rotate_file` takes the
warning branch of `transfer_to_final` and then prunes only the staging
directory. -/
theorem rotate_file_missing_source (period : Period) (t : DT) (cfg : Config)
    (moveOk : Bool) (fs : FS)
    (hsrc : lookupFile fs
      ⟨rotDataDir period cfg, cfg.reportPref ++ rotPrevKey period t ++ ".log"⟩ = none)
    (hdir : rotDataDir period cfg ∈ fs.dirs) :
    rotate_file period t cfg moveOk fs
      = Except.ok ({ fs with files := fs.files.filter (fun e =>
            !(e.1.dir == rotDataDir period cfg &&
              !([(⟨rotDataDir period cfg,
                   cfg.reportPref ++ rotCurKey period t ++ ".log"⟩ : FPath)].contains e.1))) },
          [Event.warnNotify, Event.notify]) := by
  have hc : fs.dirs.contains (rotDataDir period cfg) = true :=
    List.elem_eq_true_of_mem hdir
  simp [rotate_file, transfer_to_final, hsrc, clean_final_directory, hc, hdir]

/-- Configuration used by the concrete end-to-end scenario: distinct
staging ("AM", "AD") and final ("FM", "FD") directories, report file
prefix `report_`. -/
def cfgScenario : Config :=
  { generalPath := "G", filePref := "stat_", reportPref := "report_",
    actualDataPath := "AM", actualDayDataPath := "AD",
    finalDayDataPath := "FD", finalDataPath := "FM", ntpdDriftPath := "DR" }

/-- Initial filesystem of the end-to-end scenario: the daily staging
directory holds yesterday's file `report_20250131.log`, and the final-day
directory holds a stale, pre-existing final file. -/
def fsScenario : FS :=
  { dirs := ["AD", "FD"],
    files := [(⟨"AD", "report_20250131.log"⟩, "JAN"),
              (⟨"FD", "report_20250110.log"⟩, "OLDFINAL")] }

/-- Claim C1: for an invocation at 2025-02-01T00:05 with the daily staging
file `report_20250131.log` present, the daily rotation fires: the file is
moved to the final-day directory as `report_20250131.log`, the staging
directory afterwards contains only `report_20250201.log` (the current-day
file written by the same invocation's append step, holding the timestamp
line and the payload), and the final-day directory contains only the
moved file, the pre-existing final file having been deleted. -/
theorem C1_daily_rotation_end_to_end :
    (invocation ⟨2025, 2, 1, 0, 5⟩ cfgScenario "ntpdata" true fsScenario).map
        (fun r => (filesIn r.1 "AD", filesIn r.1 "FD"))
      = Except.ok
          ([(⟨"AD", "report_20250201.log"⟩, "01.02.2025 00:05:00\nntpdata")],
           [(⟨"FD", "report_20250131.log"⟩, "JAN")]) := by rfl

/-- Claim C2: re-running the rotation after the staging source file has
already been moved neither raises an error nor deletes the final file
created by the first run: when the source is missing, `transfer_to_final`
reports a warning (the rotation then only emits its completion
notification), and every file of the final directory is unchanged,
provided the staging directory exists (as it does after a first
successful rotation) and is distinct from the final directory. -/
theorem C2_second_rotation_in_window_safe (period : Period) (t : DT) (cfg : Config)
    (moveOk : Bool) (fs : FS)
    (hsrc : lookupFile fs
      ⟨rotDataDir period cfg, cfg.reportPref ++ rotPrevKey period t ++ ".log"⟩ = none)
    (hdir : rotDataDir period cfg ∈ fs.dirs)
    (hne : rotFinalDir period cfg ≠ rotDataDir period cfg) :
    (rotate_file period t cfg moveOk fs).toOption.map (fun r => r.2)
      = some [Event.warnNotify, Event.notify]
    ∧ ∀ q : FPath, q.dir = rotFinalDir period cfg →
        (rotate_file period t cfg moveOk fs).toOption.map (fun r => lookupFile r.1 q)
          = some (lookupFile fs q) := by
  rw [rotate_file_missing_source period t cfg moveOk fs hsrc hdir]
  constructor
  · rfl
  · intro q hq
    simp only [Except.toOption, Option.map_some']
    simp only [lookupFile]
    rw [find?_filter_of_imp]
    intro e he
    have hed : e.1.dir = rotFinalDir period cfg := by rw [eq_of_beq he, hq]
    have hdd : (e.1.dir == rotDataDir period cfg) = false := by
      rw [hed]
      exact beq_false_of_ne hne
    simp [hdd]

/-- Instant of the witness for claim C2: the day after the end-to-end
scenario, inside the daily trigger window. -/
def tSecondRun : DT := ⟨2025, 2, 2, 0, 5⟩

/-- Filesystem of the witness for claim C2: the state after a first
successful daily rotation has moved `report_20250201.log` into the final
directory, leaving the staging directory without a source file. -/
def fsSecondRun : FS := ⟨["AD", "FD"], [(⟨"FD", "report_20250201.log"⟩, "X")]⟩

/-- Witness for claim C2 at the concrete second-run state. -/
theorem C2_second_rotation_in_window_safe_witness :
    (rotate_file Period.daily tSecondRun cfgScenario true fsSecondRun).toOption.map
        (fun r => r.2)
      = some [Event.warnNotify, Event.notify]
    ∧ (rotate_file Period.daily tSecondRun cfgScenario true fsSecondRun).toOption.map
        (fun r => lookupFile r.1 ⟨"FD", "report_20250201.log"⟩)
      = some (some "X") := by
  have h := C2_second_rotation_in_window_safe Period.daily tSecondRun cfgScenario true
    fsSecondRun (by rfl) (by decide) (by decide)
  refine ⟨h.1, ?_⟩
  have h2 := h.2 ⟨"FD", "report_20250201.log"⟩ rfl
  rw [h2]
  rfl

/-- Claim C3: for every invocation on January 1 inside the monthly trigger
window, the previous-month key computed by the monthly rotation is
December of the previous year (`%Y%m` of a month-12 date), never an
invalid month such as month 0. -/
theorem C3_january_monthly_previous_key (t : DT) (hm : t.month = 1) (hd : t.day = 1)
    (hh : t.hour = 0) (hmin : t.minute < 10) (hy : 2 ≤ t.year) :
    rotPrevKey Period.monthly t = padNum 4 (t.year - 1) ++ "12"
    ∧ (prevDay { t with day := 1 }).month = 12 := by
  have h2 : padNum 2 12 = "12" := rfl
  constructor
  · simp [rotPrevKey, fmtYM, prevDay, hm, h2]
  · simp [prevDay, hm]

/-- Witness for claim C3: at 2025-01-01T00:05 the monthly previous key is
the string "202412". -/
theorem C3_january_monthly_previous_key_witness :
    rotPrevKey Period.monthly ⟨2025, 1, 1, 0, 5⟩ = "202412" := by
  have h := (C3_january_monthly_previous_key ⟨2025, 1, 1, 0, 5⟩ rfl rfl rfl
    (by decide) (by decide)).1
  rw [h]
  rfl

/-- Claim C4: directory reconciliation never deletes a file whose path is
a member of the keep set: whenever `clean_final_directory` succeeds, every
file of the keep set is unchanged (for any keep set, the empty one
included, and any directory state). -/
theorem C4_clean_never_deletes_keep (fs : FS) (d : String) (ex : List FPath) (p : FPath)
    (hp : p ∈ ex) (fs2 : FS) (hok : clean_final_directory fs d ex = Except.ok fs2) :
    lookupFile fs2 p = lookupFile fs p := by
  unfold clean_final_directory at hok
  split at hok
  · injection hok with hok
    subst hok
    simp only [lookupFile]
    rw [find?_filter_of_imp]
    intro e he
    have hm : e.1 ∈ ex := by rw [eq_of_beq he]; exact hp
    simp [hm]
  · exact absurd hok (by simp)

/-- Witness for claim C4: pruning a directory holding a kept and a stale
file leaves the kept file's content unchanged. -/
theorem C4_clean_never_deletes_keep_witness :
    lookupFile (⟨["D"], [(⟨"D", "keep.log"⟩, "K")]⟩ : FS) ⟨"D", "keep.log"⟩
      = lookupFile (⟨["D"], [(⟨"D", "keep.log"⟩, "K"), (⟨"D", "old.log"⟩, "O")]⟩ : FS)
          ⟨"D", "keep.log"⟩ :=
  C4_clean_never_deletes_keep
    ⟨["D"], [(⟨"D", "keep.log"⟩, "K"), (⟨"D", "old.log"⟩, "O")]⟩ "D"
    [⟨"D", "keep.log"⟩] ⟨"D", "keep.log"⟩ (by decide)
    ⟨["D"], [(⟨"D", "keep.log"⟩, "K")]⟩ (by rfl)

/-- Claim C5, counterexample: calling `clean_final_directory` on a
directory that does not exist does not return successfully with zero
deletions — it raises (the model's `Except.error`, matching the
`FileNotFoundError` of `Path.iterdir` on a missing directory). -/
theorem C5_missing_directory_counterexample :
    clean_final_directory ⟨["E"], [(⟨"E", "a.log"⟩, "A")]⟩ "D" [] = Except.error () := by rfl

/-- Claim C5 as amended: calling `clean_final_directory` on a missing
directory raises an error (no deletion is performed); on an existing
directory it deletes only files directly inside it — files elsewhere,
including those inside subdirectories, are unchanged, and no subdirectory
is ever removed. -/
theorem C5_missing_directory_amended (fs : FS) (d : String) (ex : List FPath) :
    (d ∉ fs.dirs → clean_final_directory fs d ex = Except.error ())
    ∧ ∀ fs2, clean_final_directory fs d ex = Except.ok fs2 →
        fs2.dirs = fs.dirs ∧ ∀ q : FPath, q.dir ≠ d → lookupFile fs2 q = lookupFile fs q := by
  constructor
  · intro hnot
    have hcd : fs.dirs.contains d = false := by
      cases hc : fs.dirs.contains d
      · rfl
      · exact absurd (List.mem_of_elem_eq_true hc) hnot
    simp [clean_final_directory, hcd]
    exact hnot
  · intro fs2 hok
    unfold clean_final_directory at hok
    split at hok
    · injection hok with hok
      subst hok
      refine ⟨rfl, ?_⟩
      intro q hq
      simp only [lookupFile]
      rw [find?_filter_of_imp]
      intro e he
      have hdd : (e.1.dir == d) = false := by
        rw [eq_of_beq he]
        exact beq_false_of_ne hq
      simp [hdd]
    · exact absurd hok (by simp)

/-- Witness for the amended claim C5: a missing directory errors, and
pruning `D` leaves a file inside the subdirectory `D/sub` unchanged. -/
theorem C5_missing_directory_amended_witness :
    clean_final_directory (⟨["E"], []⟩ : FS) "D" [] = Except.error ()
    ∧ lookupFile (⟨["D", "D/sub"], [(⟨"D/sub", "b.log"⟩, "B")]⟩ : FS) ⟨"D/sub", "b.log"⟩
        = lookupFile
            (⟨["D", "D/sub"], [(⟨"D", "a.log"⟩, "A"), (⟨"D/sub", "b.log"⟩, "B")]⟩ : FS)
            ⟨"D/sub", "b.log"⟩ := by
  constructor
  · exact (C5_missing_directory_amended ⟨["E"], []⟩ "D" []).1 (by decide)
  · exact ((C5_missing_directory_amended ⟨["D", "D/sub"],
        [(⟨"D", "a.log"⟩, "A"), (⟨"D/sub", "b.log"⟩, "B")]⟩ "D" []).2
      ⟨["D", "D/sub"], [(⟨"D/sub", "b.log"⟩, "B")]⟩ (by rfl)).2
      ⟨"D/sub", "b.log"⟩ (by decide)

/-- Membership in the directory set is preserved by creating a
directory. -/
theorem mem_dirs_mkdirP (fs : FS) (d x : String) (h : x ∈ fs.dirs) :
    x ∈ (mkdirP fs d).dirs := by
  unfold mkdirP
  split
  · exact h
  · exact List.mem_cons_of_mem _ h

/-- Filtering with a predicate that rejects everything the search
predicate accepts makes `find?` come up empty. -/
theorem find?_filter_none {α : Type} (l : List α) (q f : α → Bool)
    (h : ∀ e, q e = true → f e = false) : (l.filter f).find? q = none := by
  induction l with
  | nil => rfl
  | cons a t ih =>
    cases hq : q a with
    | true => simp [List.filter_cons, h a hq, ih]
    | false =>
      cases hf : f a with
      | true => simp [List.filter_cons, hf, List.find?, hq, ih]
      | false => simp [List.filter_cons, hf, ih]

/-- When the previous staging file exists but its move fails, `rotate_file`
catches the exception inside `transfer_to_final` and then still runs the
unprotected staging-directory prune, keeping only the current-period
file. -/
theorem rotate_file_failed_move (period : Period) (t : DT) (cfg : Config) (fs : FS)
    (hsrc : (lookupFile fs
      ⟨rotDataDir period cfg, cfg.reportPref ++ rotPrevKey period t ++ ".log"⟩).isSome = true)
    (hdir : rotDataDir period cfg ∈ fs.dirs) :
    rotate_file period t cfg false fs
      = Except.ok ({ mkdirP fs (rotFinalDir period cfg) with files :=
            (mkdirP fs (rotFinalDir period cfg)).files.filter (fun e =>
              !(e.1.dir == rotDataDir period cfg &&
                !([(⟨rotDataDir period cfg,
                     cfg.reportPref ++ rotCurKey period t ++ ".log"⟩ : FPath)].contains e.1))) },
          [Event.moveAttempt, Event.errorNotify, Event.notify]) := by
  have hdir1 : rotDataDir period cfg ∈ (mkdirP fs (rotFinalDir period cfg)).dirs :=
    mem_dirs_mkdirP fs (rotFinalDir period cfg) (rotDataDir period cfg) hdir
  have hc : (mkdirP fs (rotFinalDir period cfg)).dirs.contains (rotDataDir period cfg) = true :=
    List.elem_eq_true_of_mem hdir1
  simp [rotate_file, transfer_to_final, hsrc, clean_final_directory, hc, hdir1]

/-- Filesystem for the claim C6 scenario: the previous day's staging file
exists (content "DATA") and its move is about to fail. -/
def fsUnmoved : FS := ⟨["AD", "FD"], [(⟨"AD", "report_20250201.log"⟩, "DATA")]⟩

/-- Claim C6, counterexample: at 2025-02-02T00:05 with the staging file
`report_20250201.log` present and the move failing, the daily rotation
reports the failure (one error notification) but the staging source file
is NOT left in place — after the rotation's staging-directory prune
(which keeps only the current-period file) it is gone. -/
theorem C6_failed_move_counterexample :
    (rotate_file Period.daily ⟨2025, 2, 2, 0, 5⟩ cfgScenario false fsUnmoved).toOption.map
        (fun r => (lookupFile r.1 ⟨"AD", "report_20250201.log"⟩, r.2.count Event.errorNotify))
      = some (none, 1) := by rfl

/-- Claim C6 as amended: if the move of the previous period's staging file
fails with a filesystem error, the failure is reported (logged and sent to
the notification sink) and `transfer_to_final` itself leaves the source in
place with exactly one move attempt and no retry; but the enclosing
`rotate_file` then unconditionally prunes the staging directory keeping
only the current-period file, which deletes the un-moved source — after
the full rotation the previous period's data is lost. -/
theorem C6_failed_move_amended (period : Period) (t : DT) (cfg : Config) (fs : FS)
    (hsrc : (lookupFile fs
      ⟨rotDataDir period cfg, cfg.reportPref ++ rotPrevKey period t ++ ".log"⟩).isSome = true)
    (hdir : rotDataDir period cfg ∈ fs.dirs)
    (hkey : cfg.reportPref ++ rotPrevKey period t ++ ".log"
      ≠ cfg.reportPref ++ rotCurKey period t ++ ".log") :
    lookupFile (transfer_to_final false fs
        ⟨rotDataDir period cfg, cfg.reportPref ++ rotPrevKey period t ++ ".log"⟩
        ⟨rotFinalDir period cfg, cfg.reportPref ++ rotPrevKey period t ++ ".log"⟩
        (rotFinalDir period cfg)).1
        ⟨rotDataDir period cfg, cfg.reportPref ++ rotPrevKey period t ++ ".log"⟩
      = lookupFile fs ⟨rotDataDir period cfg, cfg.reportPref ++ rotPrevKey period t ++ ".log"⟩
    ∧ (transfer_to_final false fs
        ⟨rotDataDir period cfg, cfg.reportPref ++ rotPrevKey period t ++ ".log"⟩
        ⟨rotFinalDir period cfg, cfg.reportPref ++ rotPrevKey period t ++ ".log"⟩
        (rotFinalDir period cfg)).2 = [Event.moveAttempt, Event.errorNotify]
    ∧ (rotate_file period t cfg false fs).toOption.map (fun r => lookupFile r.1
        ⟨rotDataDir period cfg, cfg.reportPref ++ rotPrevKey period t ++ ".log"⟩)
      = some none
    ∧ (rotate_file period t cfg false fs).toOption.map (fun r => r.2)
      = some [Event.moveAttempt, Event.errorNotify, Event.notify] := by
  refine ⟨?_, ?_, ?_, ?_⟩
  · simp [transfer_to_final, hsrc, lookupFile_mkdirP]
  · simp [transfer_to_final, hsrc]
  · rw [rotate_file_failed_move period t cfg fs hsrc hdir]
    simp only [Except.toOption, Option.map_some']
    simp only [lookupFile]
    rw [find?_filter_none]
    · rfl
    · intro e he
      have he1 := eq_of_beq he
      rw [he1]
      simp [hkey]
  · rw [rotate_file_failed_move period t cfg fs hsrc hdir]
    rfl

/-- Witness for the amended claim C6 at the concrete failing move of
2025-02-02T00:05: the transfer step alone keeps "DATA" with a single
reported attempt, and the full rotation then deletes it. -/
theorem C6_failed_move_amended_witness :
    lookupFile (transfer_to_final false fsUnmoved ⟨"AD", "report_20250201.log"⟩
        ⟨"FD", "report_20250201.log"⟩ "FD").1 ⟨"AD", "report_20250201.log"⟩
      = some "DATA"
    ∧ (transfer_to_final false fsUnmoved ⟨"AD", "report_20250201.log"⟩
        ⟨"FD", "report_20250201.log"⟩ "FD").2 = [Event.moveAttempt, Event.errorNotify]
    ∧ (rotate_file Period.daily ⟨2025, 2, 2, 0, 5⟩ cfgScenario false fsUnmoved).toOption.map
        (fun r => lookupFile r.1 ⟨"AD", "report_20250201.log"⟩) = some none
    ∧ (rotate_file Period.daily ⟨2025, 2, 2, 0, 5⟩ cfgScenario false fsUnmoved).toOption.map
        (fun r => r.2) = some [Event.moveAttempt, Event.errorNotify, Event.notify] := by
  have h := C6_failed_move_amended Period.daily ⟨2025, 2, 2, 0, 5⟩ cfgScenario fsUnmoved
    (by rfl) (by decide) (by decide)
  exact ⟨h.1.trans (by rfl), h.2.1, h.2.2.1, h.2.2.2⟩

/-- Claim C7: with 3 maximum attempts, the FTP retry wrapper returns
success with exactly two intervening fixed delays when the action fails on
attempts 1 and 2 and succeeds on attempt 3; when the action fails on all
three attempts it returns the failure and triggers exactly one
notification call. -/
theorem C7_retry_wrapper_behaviour :
    connect_to_ftp (fun a => a == 2) 3 = (true, [Event.sleep, Event.sleep])
    ∧ connect_to_ftp (fun _ => false) 3
        = (false, [Event.sleep, Event.sleep, Event.errorNotify]) := by
  constructor <;> rfl

/-- Claim C8: for every file, payload and timestamp, a write in append
mode results in the file's prior content followed by the new record, while
a write in overwrite mode results in the file containing only the new
record; in both modes the record is exactly the timestamp line terminated
by a newline followed by the raw payload, with no further normalization or
separator. -/
theorem C8_append_overwrite_on_disk_format (fs : FS) (p : FPath) (data dateTime : String) :
    lookupFile (write_to_file fs p data dateTime true) p
      = some ((lookupFile fs p).getD "" ++ dateTime ++ "\n" ++ data)
    ∧ lookupFile (write_to_file fs p data dateTime false) p
      = some (dateTime ++ "\n" ++ data) := by
  constructor <;>
    simp [write_to_file, lookupFile_setFile_self, lookupFile_mkdirP]

/-- A run whose clock readings are all 2025-02-01T00:05. -/
def runConst : Clock := fun _ => ⟨2025, 2, 1, 0, 5⟩

/-- A run whose initial clock reading is 2025-02-01T00:05 but whose later
readings fall outside the trigger window, at 2025-02-01T00:15. -/
def runDrifts : Clock := fun n => if n == 0 then ⟨2025, 2, 1, 0, 5⟩ else ⟨2025, 2, 1, 0, 15⟩

/-- A run whose initial clock reading is 2025-02-01T00:15 but whose later
readings are at 2025-02-01T00:05. -/
def runLateStart : Clock := fun n => if n == 0 then ⟨2025, 2, 1, 0, 15⟩ else ⟨2025, 2, 1, 0, 5⟩

/-- Claim C9, counterexample: the code does not derive its time-dependent
computations from a single clock snapshot taken at the start — two runs
with equal initial reading but different later readings disagree on the
rotation trigger decisions, refuting "two runs whose single clock reading
is equal compute identical paths and rotation decisions". -/
theorem C9_single_snapshot_counterexample :
    runConst 0 = runDrifts 0
    ∧ ¬ (∀ (cfg : Config) (r1 r2 : Clock), r1 0 = r2 0 →
          pathsRead r1 cfg = pathsRead r2 cfg ∧ triggersRead r1 = triggersRead r2) := by
  constructor
  · rfl
  · intro h
    exact absurd (h cfgScenario runConst runDrifts rfl).2 (by decide)

/-- Claim C9 as amended: the invocation reads the clock at several call
sites (`define_file_paths`, the trigger checks of `execute_sync`, and the
key computations of `rotate_file`), and each time-dependent computation is
a function of the reading at its own call site: two runs that agree on
those readings compute identical file paths, trigger decisions and
rotation keys, whatever their other readings. -/
theorem C9_per_read_determinism (cfg : Config) (r1 r2 : Clock)
    (h1 : r1 1 = r2 1) (h3 : r1 3 = r2 3) (h4 : r1 4 = r2 4) (h5 : r1 5 = r2 5)
    (period : Period) :
    pathsRead r1 cfg = pathsRead r2 cfg ∧ triggersRead r1 = triggersRead r2
    ∧ rotKeysRead r1 period = rotKeysRead r2 period := by
  refine ⟨?_, ?_, ?_⟩ <;> simp [pathsRead, triggersRead, rotKeysRead, h1, h3, h4, h5]

/-- Witness for the amended claim C9: two runs that agree on reads 1, 3,
4 and 5 but differ on the initial read still agree on paths, triggers and
rotation keys. -/
theorem C9_per_read_determinism_witness :
    pathsRead runConst cfgScenario = pathsRead runLateStart cfgScenario
    ∧ triggersRead runConst = triggersRead runLateStart
    ∧ rotKeysRead runConst Period.daily = rotKeysRead runLateStart Period.daily :=
  C9_per_read_determinism cfgScenario runConst runLateStart rfl rfl rfl rfl Period.daily

/-- Claim C10: in the monthly FTP transfer (day 1, hour 10), the year
substituted into the remote directory template is the previous calendar
year when the invocation falls in January and the current year in every
other month; the daily transfer (hour 10) always uses the untemplated
configured remote path. -/
theorem C10_ftp_year_substitution (t : DT) (cfg : FtpConfig) (hd : t.day = 1)
    (hh : t.hour = 10) :
    (t.month = 1 →
      (execute_transfer_paths t cfg).1 = some (cfg.pathTemplate (Nat.repr (t.year - 1))))
    ∧ (t.month ≠ 1 →
      (execute_transfer_paths t cfg).1 = some (cfg.pathTemplate (Nat.repr t.year)))
    ∧ (execute_transfer_paths t cfg).2 = some cfg.localFtpPath := by
  refine ⟨?_, ?_, ?_⟩
  · intro hm; simp [execute_transfer_paths, hd, hh, hm]
  · intro hm; simp [execute_transfer_paths, hd, hh, hm]
  · simp [execute_transfer_paths, hh]

/-- FTP configuration of the witness for claim C10: a template prepending
an archive root to the year, and a fixed daily remote path. -/
def ftpCfgArchive : FtpConfig := ⟨fun y => "/Archive/" ++ y, "/daily"⟩

/-- Witness for claim C10: at 2025-01-01T10:00 the monthly remote path
uses the previous year, 2024, and the daily path is the configured one. -/
theorem C10_ftp_year_substitution_witness :
    (execute_transfer_paths ⟨2025, 1, 1, 10, 0⟩ ftpCfgArchive).1 = some "/Archive/2024"
    ∧ (execute_transfer_paths ⟨2025, 1, 1, 10, 0⟩ ftpCfgArchive).2 = some "/daily" := by
  have h := C10_ftp_year_substitution ⟨2025, 1, 1, 10, 0⟩ ftpCfgArchive rfl rfl
  exact ⟨(h.1 rfl).trans (by rfl), h.2.2⟩
